import Mathlib

/-!
Verification development for the SkyLine Airways conversational booking agent
(`backend/backend_app.py`).  The dialogue engine is shallowly embedded: Python
strings become `String`, the regex searches of the extractors become explicit
leftmost-match scanners over `List Char` with the same greedy/lazy backtracking
order as Python `re.search`, the process-wide session maps become explicit
store values threaded through the tools, and the external collaborators
(sqlite lookups, booking commit, `hash`, `datetime.now`) become parameters.
-/

/-! ## Python string primitives -/

/-- Python whitespace class `\s` restricted to ASCII (the texts handled by the
agent are ASCII apart from fixed message literals). -/
def isWsChar (c : Char) : Bool :=
  c == ' ' || c == '\t' || c == '\n' || c == '\x0d' || c == '\x0b' || c == '\x0c'

/-- Regex class `[a-zA-Z]`. -/
def isAsciiAlpha (c : Char) : Bool :=
  ('a' ≤ c && c ≤ 'z') || ('A' ≤ c && c ≤ 'Z')

/-- Regex class `\d`. -/
def isDigitC (c : Char) : Bool := '0' ≤ c && c ≤ '9'

/-- Regex word class `\w` (ASCII part), used for `\b` boundaries. -/
def isWordC (c : Char) : Bool := isAsciiAlpha c || isDigitC c || c == '_'

/-- Regex class `[a-zA-Z ]` used by the `from X to Y` pattern. -/
def isAlphaSpace (c : Char) : Bool := isAsciiAlpha c || c == ' '

/-- ASCII case folding of one character, as Python `str.lower` acts on the
ASCII range. -/
def pyLowerChar (c : Char) : Char :=
  if 'A' ≤ c && c ≤ 'Z' then Char.ofNat (c.toNat + 32) else c

/-- ASCII upcasing of one character, as Python `str.upper` acts on ASCII. -/
def pyUpperChar (c : Char) : Char :=
  if 'a' ≤ c && c ≤ 'z' then Char.ofNat (c.toNat - 32) else c

/-- Python `text.lower()` (ASCII range). -/
def pyLowerStr (s : String) : String := String.mk (s.data.map pyLowerChar)

/-- Python `text.upper()` (ASCII range). -/
def pyUpperStr (s : String) : String := String.mk (s.data.map pyUpperChar)

/-- Python `text.strip()` on a character list. -/
def pyStripL (cs : List Char) : List Char :=
  ((cs.dropWhile isWsChar).reverse.dropWhile isWsChar).reverse

/-- Python `text.strip()`. -/
def pyStrip (s : String) : String := String.mk (pyStripL s.data)

/-- Decides whether `n` is a prefix of `h` (character lists). -/
def isPrefixL : List Char → List Char → Bool
  | [], _ => true
  | _ :: _, [] => false
  | a :: as, b :: bs => a == b && isPrefixL as bs

/-- Decides whether `n` occurs as a contiguous substring of `h`. -/
def isInfixL (n : List Char) : List Char → Bool
  | [] => isPrefixL n []
  | c :: t => isPrefixL n (c :: t) || isInfixL n t

/-- Python `needle in hay` on strings. -/
def pyIn (needle hay : String) : Bool := isInfixL needle.data hay.data

/-- First index at which `needle` occurs in the list, as Python `str.find`
(for needles known to occur). -/
def indexOfSubAux (needle : List Char) : List Char → Nat → Option Nat
  | [], i => if isPrefixL needle [] then some i else none
  | c :: rest, i =>
    if isPrefixL needle (c :: rest) then some i else indexOfSubAux needle rest (i + 1)

/-! ## Regex scanners

Each helper mirrors one `re.search` call of the source.  Python regex
semantics: the leftmost starting position wins; at a fixed position
alternatives are tried left to right, greedy pieces longest-first and lazy
pieces shortest-first.  For the patterns below the only pieces that genuinely
need backtracking are spelled out; for the rest a maximal run is the unique
candidate because the character classes of adjacent pieces are disjoint. -/

/-- Matches `\s+to\s+([a-zA-Z]+)` at the head of the list; returns the group.
Maximal whitespace runs are the only candidates since `t` is not whitespace
and an alphabetic group character is not whitespace either. -/
def matchToTail (cs : List Char) : Option (List Char) :=
  let w := cs.takeWhile isWsChar
  if w.isEmpty then none
  else
    let r1 := cs.drop w.length
    if isPrefixL ['t', 'o'] r1 then
      let r2 := r1.drop 2
      let w2 := r2.takeWhile isWsChar
      if w2.isEmpty then none
      else
        let g2 := (r2.drop w2.length).takeWhile isAsciiAlpha
        if g2.isEmpty then none else some g2
    else none

/-- Matches `\s+to\s+([a-zA-Z ]+)` at the head of the list (the tail of the
`from X to Y` pattern, whose second group also admits spaces). -/
def matchToTailSp (cs : List Char) : Option (List Char) :=
  let w := cs.takeWhile isWsChar
  if w.isEmpty then none
  else
    let r1 := cs.drop w.length
    if isPrefixL ['t', 'o'] r1 then
      let r2 := r1.drop 2
      let w2 := r2.takeWhile isWsChar
      if w2.isEmpty then none
      else
        let g2 := (r2.drop w2.length).takeWhile isAlphaSpace
        if g2.isEmpty then none else some g2
    else none

/-- Lazy first group of `from\s+([a-zA-Z ]+?)\s+to\s+([a-zA-Z ]+)`: grow the
group one character at a time (shortest first, Python lazy order), testing the
tail pattern after each growth step. -/
def fromToLazy (acc : List Char) : List Char → Option (List Char × List Char)
  | [] => none
  | c :: rest =>
    if isAlphaSpace c then
      match matchToTailSp rest with
      | some g2 => some (acc ++ [c], g2)
      | none => fromToLazy (acc ++ [c]) rest
    else none

/-- Greedy `\s+` after `from`, backtracking from the maximal whitespace run
down to a single character, then the lazy group (Python backtracking order). -/
def fromToTryWs (cs : List Char) : Nat → Option (List Char × List Char)
  | 0 => none
  | k + 1 =>
    match fromToLazy [] (cs.drop (k + 1)) with
    | some r => some r
    | none => fromToTryWs cs k

/-- Matches `from\s+([a-zA-Z ]+?)\s+to\s+([a-zA-Z ]+)` anywhere (leftmost). -/
def fromToFind : List Char → Option (List Char × List Char)
  | [] => none
  | c :: rest =>
    if isPrefixL ['f', 'r', 'o', 'm'] (c :: rest) then
      let after := (c :: rest).drop 4
      let w := after.takeWhile isWsChar
      match (if w.isEmpty then none else fromToTryWs after w.length) with
      | some r => some r
      | none => fromToFind rest
    else fromToFind rest

/-- Matches `([a-zA-Z]+)\s+to\s+([a-zA-Z]+)` anywhere (leftmost).  The first
group can only be the maximal alphabetic run at each start position: shrinking
it would put an alphabetic character where `\s` is required. -/
def xToYFind : List Char → Option (List Char × List Char)
  | [] => none
  | c :: rest =>
    if isAsciiAlpha c then
      let g1 := (c :: rest).takeWhile isAsciiAlpha
      match matchToTail ((c :: rest).drop g1.length) with
      | some g2 => some (g1, g2)
      | none => xToYFind rest
    else xToYFind rest

/-- Matches `\s+([a-zA-Z]+)` at the head of the list; returns the group. -/
def matchWsAlpha (cs : List Char) : Option (List Char) :=
  let w := cs.takeWhile isWsChar
  if w.isEmpty then none
  else
    let g := (cs.drop w.length).takeWhile isAsciiAlpha
    if g.isEmpty then none else some g

/-- Alternation literals of pattern 3, in the order of the source regex. -/
def goToAlts : List (List Char) :=
  ["need to go".data, "going to".data, "go to".data, "visit".data,
   "fly to".data, "travel to".data]

/-- Tries each alternative of `(?:need to go|going to|go to|visit|fly to|travel to)\s+([a-zA-Z]+)`
at a fixed position, in order. -/
def goToTryAlts : List (List Char) → List Char → Option (List Char)
  | [], _ => none
  | a :: as, cs =>
    if isPrefixL a cs then
      match matchWsAlpha (cs.drop a.length) with
      | some g => some g
      | none => goToTryAlts as cs
    else goToTryAlts as cs

/-- Leftmost match of pattern 3. -/
def goToFind : List Char → Option (List Char)
  | [] => none
  | c :: rest =>
    match goToTryAlts goToAlts (c :: rest) with
    | some g => some g
    | none => goToFind rest

/-- Matches `to\s+([a-zA-Z]+)` anywhere (leftmost). -/
def toOnlyFind : List Char → Option (List Char)
  | [] => none
  | c :: rest =>
    if isPrefixL ['t', 'o'] (c :: rest) then
      match matchWsAlpha ((c :: rest).drop 2) with
      | some g => some g
      | none => toOnlyFind rest
    else toOnlyFind rest

/-- Matches `from\s+([a-zA-Z]+)` anywhere (leftmost). -/
def fromOnlyFind : List Char → Option (List Char)
  | [] => none
  | c :: rest =>
    if isPrefixL ['f', 'r', 'o', 'm'] (c :: rest) then
      match matchWsAlpha ((c :: rest).drop 4) with
      | some g => some g
      | none => fromOnlyFind rest
    else fromOnlyFind rest

/-- Matches `(\d{4}-\d{2}-\d{2})` at the head of the list (fixed-count
quantifiers, no backtracking). -/
def isoAt : List Char → Option (List Char)
  | a :: b :: c :: d :: e :: f :: g :: h :: i :: j :: _ =>
    if isDigitC a && isDigitC b && isDigitC c && isDigitC d && e == '-' &&
       isDigitC f && isDigitC g && h == '-' && isDigitC i && isDigitC j then
      some [a, b, c, d, e, f, g, h, i, j]
    else none
  | _ => none

/-- Leftmost match of `(\d{4}-\d{2}-\d{2})`. -/
def isoDateFind : List Char → Option (List Char)
  | [] => none
  | c :: rest =>
    match isoAt (c :: rest) with
    | some g => some g
    | none => isoDateFind rest

/-- Matches `\s+([a-zA-Z]{3,})` at the head of the list (group is the maximal
alphabetic run, required to have at least three characters). -/
def wsThenAlpha3 (cs : List Char) : Option (List Char) :=
  let w := cs.takeWhile isWsChar
  if w.isEmpty then none
  else
    let g := (cs.drop w.length).takeWhile isAsciiAlpha
    if 3 ≤ g.length then some g else none

/-- Numeric value of a digit-character list. -/
def digitsVal (ds : List Char) : Nat := ds.foldl (fun n c => 10 * n + (c.toNat - 48)) 0

/-- Matches `\s+(\d{1,2})\s+([a-zA-Z]{3,})` at the head of the list (the tail
of the `on <day> <month>` pattern); `\d{1,2}` is greedy, so the two-digit
reading is tried before the one-digit reading. -/
def onTail (cs : List Char) : Option (Nat × List Char) :=
  let w := cs.takeWhile isWsChar
  if w.isEmpty then none
  else
    match cs.drop w.length with
    | d1 :: rest1 =>
      if isDigitC d1 then
        match rest1 with
        | d2 :: rest2 =>
          if isDigitC d2 then
            match wsThenAlpha3 rest2 with
            | some g => some (digitsVal [d1, d2], g)
            | none => (wsThenAlpha3 rest1).map (fun g => (digitsVal [d1], g))
          else (wsThenAlpha3 rest1).map (fun g => (digitsVal [d1], g))
        | [] => none
      else none
    | [] => none

/-- Leftmost match of `on\s+(\d{1,2})\s+([a-zA-Z]{3,})`. -/
def onDayMonFind : List Char → Option (Nat × List Char)
  | [] => none
  | c :: rest =>
    if isPrefixL ['o', 'n'] (c :: rest) then
      match onTail ((c :: rest).drop 2) with
      | some r => some r
      | none => onDayMonFind rest
    else onDayMonFind rest

/-- Matches `\s+(\d)` at the head of the list (tail of `book\s+(\d)`). -/
def bookDigitAt (cs : List Char) : Option Nat :=
  let w := cs.takeWhile isWsChar
  if w.isEmpty then none
  else
    match cs.drop w.length with
    | d :: _ => if isDigitC d then some (d.toNat - 48) else none
    | [] => none

/-- Leftmost match of `book\s+(\d)`; returns the digit value. -/
def bookDigitFind : List Char → Option Nat
  | [] => none
  | c :: rest =>
    if isPrefixL ['b', 'o', 'o', 'k'] (c :: rest) then
      match bookDigitAt ((c :: rest).drop 4) with
      | some n => some n
      | none => bookDigitFind rest
    else bookDigitFind rest

/-- True when the position after the last matched character is a `\b`
boundary: end of input or a non-word character. -/
def boundaryAfter : List Char → Bool
  | [] => true
  | c :: _ => !(isWordC c)

/-- Matches `(\d{1,2}[A-F])\b` at the head of the list (the leading `\b` is
checked by the caller).  `\d{1,2}` is greedy: two digits are tried first. -/
def seatAt : List Char → Option (List Char)
  | d1 :: d2 :: l :: rest =>
    if isDigitC d1 && isDigitC d2 && ('A' ≤ l && l ≤ 'F') && boundaryAfter rest then
      some [d1, d2, l]
    else if isDigitC d1 && ('A' ≤ d2 && d2 ≤ 'F') && boundaryAfter (l :: rest) then
      some [d1, d2]
    else none
  | [d1, d2] =>
    if isDigitC d1 && ('A' ≤ d2 && d2 ≤ 'F') then some [d1, d2] else none
  | _ => none

/-- Scanner for `\b(\d{1,2}[A-F])\b` carrying the previous character to decide
the leading word boundary (the match starts with a digit, a word character, so
the boundary holds iff the previous character is absent or not a word
character). -/
def seatFindAux (prev : Option Char) : List Char → Option (List Char)
  | [] => none
  | c :: rest =>
    if (match prev with | none => true | some p => !(isWordC p)) then
      match seatAt (c :: rest) with
      | some g => some g
      | none => seatFindAux (some c) rest
    else seatFindAux (some c) rest

/-- Leftmost match of `\b(\d{1,2}[A-F])\b` (the seat regex, line 631). -/
def seatFind (cs : List Char) : Option (List Char) := seatFindAux none cs

/-! ## Entity extractor (`_extract_city_tokens`, lines 340-412) -/

/-- The fixed city/city-code vocabulary of `_extract_city_tokens`. -/
def citiesList : List String :=
  ["delhi", "del", "mumbai", "bom", "bengaluru", "bangalore", "blr",
   "hyderabad", "hyd", "chennai", "maa", "kolkata", "ccu",
   "dubai", "dxb", "singapore", "sin", "london", "lhr", "new york", "jfk", "pune"]

/-- `next((c for c in cities if c in phrase), None)` — vocabulary entry
occurring inside the captured phrase (pattern 1 lookup). -/
def pickCityContains (phrase : String) : Option String :=
  citiesList.find? (fun c => pyIn c phrase)

/-- `next((c for c in cities if c == tok or tok in c), None)` — exact token or
token contained in a vocabulary name (patterns 2-5 lookup). -/
def pickCityToken (tok : String) : Option String :=
  citiesList.find? (fun c => c == tok || pyIn tok c)

/-- Ordered pair of extracted slots, the return value of
`_extract_city_tokens`. -/
structure CityPair where
  origin : Option String
  destination : Option String
deriving DecidableEq, Repr

/-- Stable insertion (after existing entries with an equal or smaller key)
used to model the stable Python `list.sort(key=...)`. -/
def insertByIdx (p : Nat × String) : List (Nat × String) → List (Nat × String)
  | [] => [p]
  | q :: rest => if q.1 ≤ p.1 then q :: insertByIdx p rest else p :: q :: rest

/-- Stable sort by first component (insertion from the left preserves the
relative order of equal keys, as Python `sort` does). -/
def sortByIdx (l : List (Nat × String)) : List (Nat × String) :=
  l.foldl (fun acc p => insertByIdx p acc) []

/-- All vocabulary cities occurring in the text, tagged with the index of
their first occurrence and sorted by it (the fallback scan, lines 396-402). -/
def cityOccurrences (txt : List Char) : List (Nat × String) :=
  sortByIdx (citiesList.filterMap
    (fun c => (indexOfSubAux c.data txt 0).map (fun i => (i, c))))

/-- `_extract_city_tokens` (lines 340-412): lowercase and strip, then try the
five patterns in priority order, falling back to the in-order occurrence scan.
Patterns 1-3 return early; patterns 4-5 only compute isolated candidates. -/
def extractCityTokens (text : String) : CityPair :=
  let txt := pyStrip (pyLowerStr text)
  let cs := txt.data
  match fromToFind cs with
  | some (f1, f2) =>
    { origin := pickCityContains (String.mk (pyStripL f1)),
      destination := pickCityContains (String.mk (pyStripL f2)) }
  | none =>
  match xToYFind cs with
  | some (f1, f2) =>
    { origin := pickCityToken (String.mk (pyStripL f1)),
      destination := pickCityToken (String.mk (pyStripL f2)) }
  | none =>
  match goToFind cs with
  | some f1 => { origin := none, destination := pickCityToken (String.mk (pyStripL f1)) }
  | none =>
    let dest0 := match toOnlyFind cs with
      | some f1 => pickCityToken (String.mk (pyStripL f1))
      | none => none
    let orig0 := match fromOnlyFind cs with
      | some f1 => pickCityToken (String.mk (pyStripL f1))
      | none => none
    if orig0.isNone || dest0.isNone then
      match cityOccurrences cs with
      | o1 :: o2 :: _ =>
        if orig0.isNone && dest0.isNone then
          { origin := some o1.2, destination := some o2.2 }
        else { origin := orig0, destination := dest0 }
      | [o1] =>
        if dest0.isNone then { origin := orig0, destination := some o1.2 }
        else { origin := orig0, destination := dest0 }
      | [] => { origin := orig0, destination := dest0 }
    else { origin := orig0, destination := dest0 }

/-! ## Date extractor (`_extract_date_tokens`, lines 418-445) -/

/-- The observable outputs of `datetime.now()` that `_extract_date_tokens`
reads: the current year and the `%Y-%m-%d` renderings of today and of
today plus one day.  The function receives them as a parameter because the
ambient clock is outside the engine. -/
structure Clock where
  year : Nat
  todayStr : String
  tomorrowStr : String
deriving DecidableEq, Repr

/-- The 12-entry month-abbreviation table. -/
def monthsList : List String :=
  ["jan", "feb", "mar", "apr", "may", "jun", "jul", "aug", "sep", "oct", "nov", "dec"]

/-- Decimal rendering padded to two digits (`%02d` for values below 100). -/
def pad2 (n : Nat) : String := if n < 10 then "0" ++ toString n else toString n

/-- Decimal rendering padded to four digits (`%04d` for values below 10000). -/
def pad4 (n : Nat) : String :=
  if n < 10 then "000" ++ toString n
  else if n < 100 then "00" ++ toString n
  else if n < 1000 then "0" ++ toString n
  else toString n

/-- Decimal rendering padded to six digits (`%06d` for values below 1000000). -/
def pad6 (n : Nat) : String :=
  if n < 10 then "00000" ++ toString n
  else if n < 100 then "0000" ++ toString n
  else if n < 1000 then "000" ++ toString n
  else if n < 10000 then "00" ++ toString n
  else if n < 100000 then "0" ++ toString n
  else toString n

/-- `_extract_date_tokens` (lines 418-445): literal ISO date first, then
`on <day> <month>` (falling through when the month abbreviation is unknown),
then the relative words, else `None`. -/
def extractDateTokens (text : String) (clk : Clock) : Option String :=
  let t := pyLowerStr text
  let cs := t.data
  match isoDateFind cs with
  | some g => some (String.mk g)
  | none =>
    let relative : Option String :=
      if pyIn "tomorrow" t then some clk.tomorrowStr
      else if pyIn "today" t then some clk.todayStr
      else none
    match onDayMonFind cs with
    | some (day, monWord) =>
      match monthsList.findIdx? (fun m => m == String.mk (monWord.take 3)) with
      | some i => some (pad4 clk.year ++ "-" ++ pad2 (i + 1) ++ "-" ++ pad2 day)
      | none => relative
    | none => relative

/-! ## Context store

The process-wide dicts `search_contexts` and `booking_contexts` (lines
159-162) become explicit session-keyed maps threaded through the tools.
Slot values stored by the flows are always non-empty vocabulary tokens or
ISO dates, so Python truthiness of a stored value coincides with presence,
modelled by `Option`. -/

/-- `session_id or "default"`: `None` and `""` are falsy, so both fall back
to the shared literal key. -/
def sessionKey : Option String → String
  | none => "default"
  | some s => if s = "" then "default" else s

/-- Write one session key of a store. -/
def setStore {α : Type} (st : String → Option α) (k : String) (v : α) :
    String → Option α :=
  fun k' => if k' = k then some v else st k'

/-- `store.pop(key, None)`. -/
def popStore {α : Type} (st : String → Option α) (k : String) :
    String → Option α :=
  fun k' => if k' = k then none else st k'

/-- In-flight search slots (one `search_contexts` entry). -/
structure SearchCtx where
  origin : Option String := none
  destination : Option String := none
  date : Option String := none
deriving DecidableEq, Repr

abbrev SearchStore := String → Option SearchCtx

/-- One row returned by the flight lookup collaborator (the 8-column SELECT). -/
structure FlightRow where
  flight_id : Nat
  flight_number : String
  airline : String
  origin : String
  destination : String
  departure_time : String
  price : Nat
  flight_type : String
deriving DecidableEq, Repr

/-- The 7-tuple snapshot kept in `ctx["options"]` and `ctx["chosen"]`
(`flight_type` is dropped, line 594). -/
structure FlightOption where
  fid : Nat
  num : String
  airline : String
  origin : String
  destination : String
  dep : String
  price : Nat
deriving DecidableEq, Repr

/-- Projection from a query row to the stored snapshot (line 594). -/
def rowToOption (r : FlightRow) : FlightOption :=
  ⟨r.flight_id, r.flight_number, r.airline, r.origin, r.destination,
   r.departure_time, r.price⟩

/-- The flight lookup collaborator: filters to an ordered result list of at
most five rows, or a raised error (modelled as `Except.error` with the
rendered message). -/
abbrev FlightQuery := String → String → String → Except String (List FlightRow)

/-- Digit grouping of `{:,.0f}` over a reversed digit list (`n` digits
already emitted). -/
def groupDigitsRev : List Char → Nat → List Char
  | [], _ => []
  | c :: rest, n =>
    if n ≠ 0 && n % 3 == 0 then c :: ',' :: groupDigitsRev rest (n + 1)
    else c :: groupDigitsRev rest (n + 1)

/-- The fare rendering `f"₹{price:,.0f}"` (the rupee sign appears in the
source as the double-encoded bytes U+201A U+00C7 U+03C0; prices in the data
are whole rupees, so the price is a natural number). -/
def formatINR (n : Nat) : String :=
  "‚Çπ" ++ String.mk ((groupDigitsRev (toString n).data.reverse 0).reverse)

/-! ## Search Flow (`search_flights_tool`, lines 447-526) -/

def searchPromptBoth : String :=
  "üß≠ Where are you flying from and to? You can say 'from Delhi to Mumbai'."
def searchPromptDest : String :=
  "üõ¨ Noted your origin. Which destination city?"
def searchPromptOrigin : String :=
  "üõ´ Got your destination. What's your departure city?"
def datePromptMsg : String :=
  "üìÖ What date are you traveling? (e.g., 2025-12-05 or 'tomorrow')"
def noMatchesMsg : String :=
  "‚ùå No flights match that route/date. Try a different date or cities."
def searchErrPrefix : String :=
  "‚ö†Ô∏è Error searching flights: "

/-- Slot merge of one search turn (lines 456-478): the expected-slot
reassignment heuristic for a solitary extracted destination, else the direct
merge, then the unconditional date merge. -/
def searchMergeCtx (query : String) (ctx : SearchCtx) (clk : Clock) : SearchCtx :=
  let askingForOrigin := ctx.destination.isSome && ctx.origin.isNone
  let askingForDest := ctx.origin.isSome && ctx.destination.isNone
  let ext := extractCityTokens query
  let ctx :=
    if askingForOrigin && ext.destination.isSome then
      { ctx with origin := ext.destination }
    else if askingForDest && ext.destination.isSome then
      { ctx with destination := ext.destination }
    else
      let ctx := match ext.origin with
        | some o => { ctx with origin := some o }
        | none => ctx
      match ext.destination with
      | some d => { ctx with destination := some d }
      | none => ctx
  match extractDateTokens query clk with
  | some d => { ctx with date := some d }
  | none => ctx

/-- One result line of the search rendering (line 516). -/
def searchLine (f : FlightRow) : String :=
  "‚Ä¢ " ++ f.airline ++ " " ++ f.flight_number ++ " ‚Äî " ++
  f.origin ++ " ‚Üí " ++ f.destination ++ " ‚Äî Dep: " ++
  f.departure_time ++ " ‚Äî Fare: " ++ formatINR f.price

/-- The full non-empty search reply (lines 513-521). -/
def renderSearchLines (fs : List FlightRow) : String :=
  String.intercalate "\n"
    ("‚úàÔ∏è Matching flights (top results):\n" ::
     fs.map searchLine ++ ["\nTo book, just say: 'book this' or 'book first one'."])

/-- `search_flights_tool`: load the session context, merge this turn, persist,
prompt for the first missing slot, else query and render.  The context is
popped only in the non-empty branch (line 520). -/
def searchFlightsTool (query : String) (session : Option String)
    (store : SearchStore) (db : FlightQuery) (clk : Clock) :
    String × SearchStore :=
  let key := sessionKey session
  let ctx := searchMergeCtx query ((store key).getD {}) clk
  let store := setStore store key ctx
  if ctx.destination.isNone && ctx.origin.isNone then (searchPromptBoth, store)
  else if ctx.origin.isSome && ctx.destination.isNone then (searchPromptDest, store)
  else if ctx.destination.isSome && ctx.origin.isNone then (searchPromptOrigin, store)
  else if ctx.date.isNone then (datePromptMsg, store)
  else
    match db (ctx.origin.getD "") (ctx.destination.getD "") (ctx.date.getD "") with
    | .error e => (searchErrPrefix ++ e, store)
    | .ok [] => (noMatchesMsg, store)
    | .ok fs => (renderSearchLines fs, popStore store key)

/-! ## Booking Flow (`book_flight_tool`, lines 528-699) -/

/-- A `booking_contexts` entry.  The Python dict holds only the keys written
so far; absent keys are `none` / `[]` here, matching every `ctx.get` default
of the source. -/
structure BookingCtx where
  stage : String := "collect"
  origin : Option String := none
  destination : Option String := none
  date : Option String := none
  options : List FlightOption := []
  chosen : Option FlightOption := none
  seat : Option String := none
  payment_method : Option String := none
deriving DecidableEq, Repr

abbrev BookingStore := String → Option BookingCtx

/-- The fresh context `{"stage": "collect"}` (line 536). -/
def freshBookingCtx : BookingCtx := {}

/-- The fallback context `{"stage": "start"}` (line 698). -/
def startBookingCtx : BookingCtx := { stage := "start" }

/-- External collaborators of the Booking Flow: the flight lookup, the
transactional booking commit (insert booking, decrement seats, insert
payment; returns the new booking id or a raised error), and Python `hash`
composed with `abs` for the reference code. -/
structure BookCollab where
  queryFlights : FlightQuery
  commitBooking : Nat → Nat → String → Nat → String → Except String Nat
  hashPNR : String → Nat

def loginRequiredMsg : String := "‚ùå You must be logged in to book flights."
def bookPromptBoth : String := "üß≠ To book, tell me where you're flying from and to."
def bookPromptOrigin : String := "üõ´ Got your destination. What's your departure city?"
def bookPromptDest : String := "üõ¨ Noted your origin. Which destination city?"
def bookNoFlightsMsg : String := "‚ùå No flights available for that route/date. Try another date."
def bookErrPrefix : String := "‚ö†Ô∏è Booking search failed: "
def choosePromptMsg : String := "Please choose which option to book (e.g., 'book first')."
def seatPromptMsg : String := "üí∫ What seat would you like (e.g., 12A)?"
def seatRepromptMsg : String := "Please provide a seat like 12A, 15C, etc."
def paymentPromptMsg : String :=
  "üí≥ Great. Which payment method? (UPI / Credit Card / Debit Card / Net Banking)"
def paymentRepromptMsg : String :=
  "Choose a payment method: UPI, Credit Card, Debit Card, or Net Banking."
def noChosenMsg : String := "‚ùå No flight selected. Please choose an option to book."
def commitErrPrefix : String := "‚ö†Ô∏è Booking failed: "
def startPromptMsg : String :=
  "Let's start your booking. Tell me the flight number (e.g., AI101)."

/-- Slot merge of one `collect` turn (lines 541-563): same reassignment
heuristic and merge as the Search Flow, over the booking context. -/
def bookMergeCtx (txt : String) (ctx : BookingCtx) (clk : Clock) : BookingCtx :=
  let askingForOrigin := ctx.destination.isSome && ctx.origin.isNone
  let askingForDest := ctx.origin.isSome && ctx.destination.isNone
  let cities := extractCityTokens txt
  let ctx :=
    if askingForOrigin && cities.destination.isSome then
      { ctx with origin := cities.destination }
    else if askingForDest && cities.destination.isSome then
      { ctx with destination := cities.destination }
    else
      let ctx := match cities.origin with
        | some o => { ctx with origin := some o }
        | none => ctx
      match cities.destination with
      | some d => { ctx with destination := some d }
      | none => ctx
  match extractDateTokens txt clk with
  | some d => { ctx with date := some d }
  | none => ctx

/-- One numbered option line of the `choose` presentation (line 599). -/
def bookOptionLine (i : Nat) (o : FlightOption) : String :=
  toString i ++ ". " ++ o.airline ++ " " ++ o.num ++ " ‚Äî " ++
  o.origin ++ " ‚Üí " ++ o.destination ++ " ‚Äî Dep: " ++ o.dep ++
  " ‚Äî Fare: " ++ formatINR o.price

/-- `enumerate(options, start=1)` rendering. -/
def enumLines : Nat → List FlightOption → List String
  | _, [] => []
  | i, o :: rest => bookOptionLine i o :: enumLines (i + 1) rest

/-- The full option-list reply (lines 597-601). -/
def renderBookOptions (opts : List FlightOption) : String :=
  String.intercalate "\n"
    ("‚úàÔ∏è Available flights:\n" :: enumLines 1 opts ++
     ["\nReply 'book first', 'book second', or 'book this'."])

/-- Ordinal parsing of the `choose` stage (lines 610-620): `first`, then
`second`, then `book N`, then a bare `book`/`book this` defaulting to 1. -/
def chooseParsedIdx (txt : String) : Option Nat :=
  let idx0 : Option Nat :=
    if pyIn "first" txt then some 1
    else if pyIn "second" txt then some 2
    else bookDigitFind txt.data
  if idx0.isNone && (pyIn "book this" txt || pyIn "book" txt) then some 1 else idx0

/-- The payment fragment table in its fixed iteration order (lines 641-647). -/
def methodPairs : List (String × String) :=
  [("upi", "UPI"), ("credit", "Credit Card"), ("debit", "Debit Card"),
   ("net", "Net Banking"), ("bank", "Net Banking")]

/-- `next((v for k, v in method_map.items() if k in txt), None)`. -/
def paymentLookup (txt : String) : Option String :=
  (methodPairs.find? (fun p => pyIn p.1 txt)).map (fun p => p.2)

/-- `f"PNR{abs(hash(sid+str(flight_id))) % 1000000:06d}"` (line 663). -/
def pnrString (collab : BookCollab) (sid : String) (fid : Nat) : String :=
  "PNR" ++ pad6 (collab.hashPNR (sid ++ toString fid) % 1000000)

/-- The confirmation reply (lines 684-690). -/
def confirmMsg (bid : Nat) (pnr : String) (o : FlightOption)
    (seat pm : String) : String :=
  "‚úÖ Booking Confirmed\n" ++
  "Booking ID: " ++ toString bid ++ " | PNR: " ++ pnr ++ "\n" ++
  "Flight: " ++ o.airline ++ " " ++ o.num ++ " | " ++ o.origin ++ " ‚Üí " ++
  o.destination ++ " | Dep: " ++ o.dep ++ "\n" ++
  "Seat: " ++ seat ++ " | Payment: " ++ pm ++ " | Fare: " ++ formatINR o.price ++ "\n" ++
  "Have a great trip!"

/-- `book_flight_tool`: authentication gate, then the four-stage machine on
the session context, with the `{"stage": "start"}` fallback.  In the
`payment` stage the source mutates the stored dict in place when setting
`payment_method` (line 651) before the fallible commit, so that write is
persisted here before the collaborator is consulted; the `ctx["seat"]`
read raises `KeyError` when absent, which the enclosing handler renders as
the commit warning with message `'seat'`. -/
def bookFlightTool (query : String) (session : Option String)
    (customer : Option Nat) (store : BookingStore) (collab : BookCollab)
    (clk : Clock) : String × BookingStore :=
  match customer with
  | none => (loginRequiredMsg, store)
  | some cid =>
    let sid := sessionKey session
    let ctx := (store sid).getD freshBookingCtx
    let txt := pyLowerStr query
    if ctx.stage = "collect" then
      let ctx := bookMergeCtx txt ctx clk
      let store := setStore store sid ctx
      if ctx.origin.isNone && ctx.destination.isNone then (bookPromptBoth, store)
      else if ctx.destination.isSome && ctx.origin.isNone then (bookPromptOrigin, store)
      else if ctx.origin.isSome && ctx.destination.isNone then (bookPromptDest, store)
      else if ctx.date.isNone then (datePromptMsg, store)
      else
        match collab.queryFlights (ctx.origin.getD "") (ctx.destination.getD "")
            (ctx.date.getD "") with
        | .error e => (bookErrPrefix ++ e, store)
        | .ok [] => (bookNoFlightsMsg, store)
        | .ok fs =>
          let opts := fs.map rowToOption
          let ctx := { ctx with options := opts, stage := "choose" }
          (renderBookOptions opts, setStore store sid ctx)
    else if ctx.stage = "choose" then
      match chooseParsedIdx txt with
      | none => (choosePromptMsg, store)
      | some i =>
        if h : 1 ≤ i ∧ i ≤ ctx.options.length then
          let choice := ctx.options.get ⟨i - 1, by omega⟩
          let ctx := { ctx with chosen := some choice, stage := "seat" }
          (seatPromptMsg, setStore store sid ctx)
        else (choosePromptMsg, store)
    else if ctx.stage = "seat" then
      match seatFind txt.data with
      | none => (seatRepromptMsg, store)
      | some g =>
        let ctx := { ctx with seat := some (pyUpperStr (String.mk g)), stage := "payment" }
        (paymentPromptMsg, setStore store sid ctx)
    else if ctx.stage = "payment" then
      match paymentLookup txt with
      | none => (paymentRepromptMsg, store)
      | some pm =>
        let ctx := { ctx with payment_method := some pm }
        let store := setStore store sid ctx
        match ctx.chosen with
        | none => (noChosenMsg, store)
        | some o =>
          match ctx.seat with
          | none => (commitErrPrefix ++ "'seat'", store)
          | some seat =>
            let pnr := pnrString collab sid o.fid
            match collab.commitBooking cid o.fid seat o.price pm with
            | .error e => (commitErrPrefix ++ e, store)
            | .ok bid => (confirmMsg bid pnr o seat pm, popStore store sid)
    else
      (startPromptMsg, setStore store sid startBookingCtx)

/-! ## Intent Router (`tool_picker`, lines 1368-1412, and the keyword
fallback `fallback_rules`, lines 1306-1325)

The deterministic override layer always runs first; `toolPickerRoute` models
the tool decision when the optional classifier collaborator is unavailable
(`client is None`), in which case the overrides fall through to the pure
keyword rules. -/

/-- The router city vocabulary (line 1375). -/
def routerCities : List String :=
  ["delhi", "mumbai", "pune", "bangalore", "bengaluru", "chennai", "hyderabad",
   "kolkata", "dubai", "singapore", "london", "new york", "jfk", "bom", "del",
   "blr", "hyd", "maa", "ccu", "dxb", "sin", "lhr"]

/-- The expanded search-intent keywords (line 1380). -/
def searchKeywords : List String :=
  ["search", "find", "show", "available", "flights", "flight", "looking for",
   "want to fly", "travel", "traveling", "go to", "going to", "fly to", "fly from"]

def detailKeywords : List String :=
  ["details of flight", "tell me about flight", "flight information",
   "about flight", "show flight", "flight details"]

def bookingInfoKeywords : List String :=
  ["check booking", "booking status", "my booking", "booking details", "pnr",
   "reservation status"]

def profileKeywords : List String :=
  ["my profile", "my account", "my details", "my bookings", "booking history",
   "travel history"]

/-- `any(w in txt for w in ws)`. -/
def anyIn (ws : List String) (txt : String) : Bool := ws.any (fun w => pyIn w txt)

def routerHasCity (u : String) : Bool := anyIn routerCities u

def routerHasRoute (u : String) : Bool :=
  (pyIn "from" u && pyIn "to" u) || pyIn " to " u

def routerHasSearchIntent (u : String) : Bool := anyIn searchKeywords u

/-- The booking words of the search-override exclusion (line 1401). -/
def routerBookWord3 (u : String) : Bool := anyIn ["book", "reserve", "purchase"] u

/-- The booking words of the booking override (line 1405). -/
def routerBookWord5 (u : String) : Bool :=
  anyIn ["book", "reserve", "purchase", "i want to book", "need to book"] u

/-- The keyword-only classifier `fallback_rules` (lines 1306-1325). -/
def fallbackRules (inp : String) : String :=
  let txt := pyLowerStr inp
  if anyIn ["hi", "hello", "hey", "how are you", "good morning", "good evening"] txt then
    "none"
  else if anyIn ["search", "find", "available", "flights", "show me", "delhi",
      "mumbai", "pune", "bangalore", "chennai", "hyderabad", "kolkata", "dubai",
      "singapore", "london"] txt && anyIn ["from", "to", "flight"] txt then
    "search_flights"
  else if anyIn ["book", "reserve", "purchase", "buy ticket", "i want to book",
      "need to book"] txt then
    "book_flight"
  else if anyIn ["check booking", "booking status", "my booking", "booking id"] txt then
    "check_booking"
  else if anyIn ["cancel", "modify", "change", "reschedule"] txt then
    "manage_booking"
  else if anyIn ["my account", "my profile", "my bookings", "my trips", "previous"] txt then
    "customer_info"
  else if anyIn ["complaint", "complain", "issue", "problem"] txt then
    "complaint"
  else "rag"

/-- The tool decision of `tool_picker` (lines 1371-1412) with the classifier
collaborator unavailable: the forced overrides in source order, then the
keyword fallback. -/
def toolPickerRoute (userInput : String) : String :=
  let u := pyLowerStr userInput
  if anyIn detailKeywords u then "flight_details"
  else if anyIn bookingInfoKeywords u then "check_booking"
  else if anyIn profileKeywords u then "customer_info"
  else if (routerHasCity u && routerHasSearchIntent u) || routerHasRoute u ||
      (routerHasCity u && !(routerBookWord3 u)) then "search_flights"
  else if (routerHasCity u || routerHasRoute u) && routerBookWord5 u then "book_flight"
  else fallbackRules userInput

/-! ## Shared helper lemmas -/

set_option maxRecDepth 10000

/-- `part` occurs contiguously inside `hay`. -/
def StrContains (hay part : String) : Prop :=
  ∃ pre post, hay = pre ++ (part ++ post)

theorem toNat_ofNat_valid (n : Nat) (h : n.isValidChar) :
    (Char.ofNat n).toNat = n := by
  unfold Char.ofNat
  rw [dif_pos h]
  rfl

/-- Python lowercasing never produces a character in the uppercase range
`A`-`F`: uppercase letters move to the lowercase block and everything else is
untouched and was not uppercase to begin with. -/
theorem pyLowerChar_not_AF (c : Char) :
    ('A' ≤ pyLowerChar c && pyLowerChar c ≤ 'F') = false := by
  unfold pyLowerChar
  by_cases h : ('A' ≤ c && c ≤ 'Z') = true
  · rw [if_pos h]
    simp only [Bool.and_eq_true, decide_eq_true_eq] at h
    have hv : (c.toNat + 32).isValidChar := by
      have h1 : c.toNat ≤ 90 := h.2
      left
      omega
    have ht := toNat_ofNat_valid (c.toNat + 32) hv
    have h65 : 65 ≤ c.toNat := h.1
    by_contra hc
    rw [Bool.not_eq_false, Bool.and_eq_true, decide_eq_true_eq, decide_eq_true_eq] at hc
    have hle : (Char.ofNat (c.toNat + 32)).toNat ≤ 70 := hc.2
    omega
  · rw [if_neg h]
    rw [Bool.not_eq_true] at h
    by_contra hc
    rw [Bool.not_eq_false, Bool.and_eq_true, decide_eq_true_eq, decide_eq_true_eq] at hc
    have h1 : 65 ≤ c.toNat := hc.1
    have h2 : c.toNat ≤ 70 := hc.2
    have hcz : ('A' ≤ c && c ≤ 'Z') = true := by
      rw [Bool.and_eq_true, decide_eq_true_eq, decide_eq_true_eq]
      exact ⟨by show 65 ≤ c.toNat; omega, by show c.toNat ≤ 90; omega⟩
    simp [hcz] at h

/-- `seatAt` needs a character in `A`-`F` among its first three characters. -/
theorem seatAt_none_of_no_AF (cs : List Char)
    (h : ∀ c ∈ cs, ('A' ≤ c && c ≤ 'F') = false) : seatAt cs = none := by
  match cs with
  | [] => rfl
  | [d1] => rfl
  | [d1, d2] =>
    have h2 := h d2 (by simp)
    simp [seatAt, h2]
  | d1 :: d2 :: l :: rest =>
    have h2 := h d2 (by simp)
    have h3 := h l (by simp)
    simp [seatAt, h2, h3]

theorem seatFindAux_none_of_no_AF (cs : List Char) (prev : Option Char)
    (h : ∀ c ∈ cs, ('A' ≤ c && c ≤ 'F') = false) :
    seatFindAux prev cs = none := by
  induction cs generalizing prev with
  | nil => rfl
  | cons c rest ih =>
    have hall : ∀ x ∈ c :: rest, ('A' ≤ x && x ≤ 'F') = false := h
    have hat := seatAt_none_of_no_AF (c :: rest) hall
    have hrest : ∀ x ∈ rest, ('A' ≤ x && x ≤ 'F') = false := by
      intro x hx
      exact h x (by simp [hx])
    unfold seatFindAux
    split
    · rw [hat]
      exact ih (some c) hrest
    · exact ih (some c) hrest

/-- The seat regex can never match the lowercased utterance: `[A-F]` is
case-sensitive and every character of `txt = query.lower()` is outside the
uppercase block. -/
theorem seatFind_lower_none (q : String) :
    seatFind (pyLowerStr q).data = none := by
  apply seatFindAux_none_of_no_AF
  intro c hc
  simp only [pyLowerStr, String.data] at hc
  rcases List.mem_map.mp hc with ⟨c0, _, rfl⟩
  exact pyLowerChar_not_AF c0

/-- In the `seat` stage every utterance re-prompts and leaves the store
untouched, because the seat regex never matches the lowercased text. -/
theorem bookSeatStage_reprompts (q : String) (sess : Option String) (cid : Nat)
    (store : BookingStore) (collab : BookCollab) (clk : Clock) (ctx : BookingCtx)
    (hctx : store (sessionKey sess) = some ctx) (hstage : ctx.stage = "seat") :
    bookFlightTool q sess (some cid) store collab clk = (seatRepromptMsg, store) := by
  simp only [bookFlightTool, hctx, Option.getD_some, hstage, seatFind_lower_none q]
  rw [if_neg (by decide), if_neg (by decide), if_pos trivial]

/-! ## Claim C1 -/

/-- A concrete chosen-flight snapshot used in claim scenarios. -/
def sampleOpt : FlightOption :=
  ⟨7, "AI101", "Air India", "Delhi (DEL)", "Mumbai (BOM)", "2025-12-20 09:00", 5500⟩

/-- A session sitting in the `seat` stage with a chosen flight. -/
def c1SeatStore : BookingStore := fun k =>
  if k = "s1" then
    some { stage := "seat", origin := some "delhi", destination := some "mumbai",
           date := some "2025-12-20", options := [sampleOpt], chosen := some sampleOpt }
  else none

/-- A benign collaborator (never raises). -/
def benignCollab : BookCollab :=
  ⟨fun _ _ _ => .ok [], fun _ _ _ _ _ => .ok 1, fun _ => 0⟩

def clockOct : Clock := ⟨2025, "2025-10-12", "2025-10-13"⟩

/-- C1: the claim says a seat-stage utterance containing a token matching
`\d{1,2}[A-F]` case-insensitively (such as `12A`) is stored uppercased and
advances the stage to `payment`.  The code lowercases the utterance
(line 537) and then matches the case-sensitive class `[A-F]` (line 631), so
the regex can never match: the seat stage re-prompts on every utterance,
including `12A`, and never advances.  (The re-prompt half of the claim does
hold, vacuously of all utterances.) -/
theorem c1_seat_stage_never_advances :
    (∀ q : String, seatFind (pyLowerStr q).data = none) ∧
    (∀ q : String,
      bookFlightTool q (some "s1") (some 3) c1SeatStore benignCollab clockOct =
        (seatRepromptMsg, c1SeatStore)) ∧
    bookFlightTool "12A" (some "s1") (some 3) c1SeatStore benignCollab clockOct =
      (seatRepromptMsg, c1SeatStore) := by
  refine ⟨seatFind_lower_none, fun q => ?_, ?_⟩
  · exact bookSeatStage_reprompts q (some "s1") 3 c1SeatStore benignCollab clockOct _ rfl rfl
  · exact bookSeatStage_reprompts "12A" (some "s1") 3 c1SeatStore benignCollab clockOct _ rfl rfl

/-! ## Claim C2 -/

/-- A session whose SearchContext is already complete. -/
def c2Store : SearchStore := fun k =>
  if k = "default" then some ⟨some "delhi", some "mumbai", some "2025-12-20"⟩
  else none

/-- A lookup collaborator returning no rows. -/
def emptyQuery : FlightQuery := fun _ _ _ => .ok []

/-- C2 counterexample: with all three slots present and an empty result set
the tool does return the literal no-matches message, but the SearchContext is
NOT removed — `search_contexts.pop` (line 520) sits below the early return of
the empty branch (line 511), so the context survives the terminal turn. -/
theorem c2_counterexample :
    (searchFlightsTool "" none c2Store emptyQuery clockOct).1 = noMatchesMsg ∧
    ((searchFlightsTool "" none c2Store emptyQuery clockOct).2 "default").isSome = true := by
  constructor
  · decide
  · decide

/-- C2 amended: when the merged context is complete, an empty result set
returns the literal no-matches message and leaves the (complete) context in
the store, while a non-empty result set renders the list and removes the
context; only the non-empty terminal turn clears it. -/
theorem c2_search_terminal_turns (q : String) (sess : Option String)
    (store : SearchStore) (db : FlightQuery) (clk : Clock) (ctx : SearchCtx)
    (hm : searchMergeCtx q ((store (sessionKey sess)).getD {}) clk = ctx)
    (ho : ctx.origin.isSome = true) (hd : ctx.destination.isSome = true)
    (hdt : ctx.date.isSome = true) :
    (db (ctx.origin.getD "") (ctx.destination.getD "") (ctx.date.getD "") = .ok [] →
      searchFlightsTool q sess store db clk =
        (noMatchesMsg, setStore store (sessionKey sess) ctx) ∧
      (searchFlightsTool q sess store db clk).2 (sessionKey sess) = some ctx) ∧
    (∀ f fs,
      db (ctx.origin.getD "") (ctx.destination.getD "") (ctx.date.getD "") = .ok (f :: fs) →
      searchFlightsTool q sess store db clk =
        (renderSearchLines (f :: fs),
          popStore (setStore store (sessionKey sess) ctx) (sessionKey sess)) ∧
      (searchFlightsTool q sess store db clk).2 (sessionKey sess) = none) := by
  have hno : ctx.origin.isNone = false := by
    rcases Option.isSome_iff_exists.mp ho with ⟨o, ho2⟩
    simp [ho2]
  have hnd : ctx.destination.isNone = false := by
    rcases Option.isSome_iff_exists.mp hd with ⟨d, hd2⟩
    simp [hd2]
  have hndt : ctx.date.isNone = false := by
    rcases Option.isSome_iff_exists.mp hdt with ⟨t, ht2⟩
    simp [ht2]
  constructor
  · intro hdb
    have hr : searchFlightsTool q sess store db clk =
        (noMatchesMsg, setStore store (sessionKey sess) ctx) := by
      simp only [searchFlightsTool, hm, hno, hnd, hndt, ho, hd, hdt, hdb,
        Bool.and_false, Bool.false_and, Bool.and_true, Bool.true_and,
        if_false, Bool.false_eq_true, reduceIte]
    refine ⟨hr, ?_⟩
    rw [hr]
    simp [setStore]
  · intro f fs hdb
    have hr : searchFlightsTool q sess store db clk =
        (renderSearchLines (f :: fs),
          popStore (setStore store (sessionKey sess) ctx) (sessionKey sess)) := by
      simp only [searchFlightsTool, hm, hno, hnd, hndt, ho, hd, hdt, hdb,
        Bool.and_false, Bool.false_and, Bool.and_true, Bool.true_and,
        if_false, Bool.false_eq_true, reduceIte]
    refine ⟨hr, ?_⟩
    rw [hr]
    simp [popStore]

/-- A lookup collaborator returning one row for the complete slots of
`c2Store`. -/
def oneRow : FlightRow :=
  ⟨7, "AI101", "Air India", "Delhi (DEL)", "Mumbai (BOM)", "2025-12-20 09:00", 5500, "Domestic"⟩

def oneRowQuery : FlightQuery := fun o d dt =>
  if o = "delhi" && d = "mumbai" && dt = "2025-12-20" then .ok [oneRow] else .ok []

/-- C2 witness: both terminal turns of the amended statement at concrete
inputs — the empty case keeps the context, the non-empty case removes it. -/
theorem c2_search_terminal_turns_witness :
    ((searchFlightsTool "" none c2Store emptyQuery clockOct).2 "default" =
      some ⟨some "delhi", some "mumbai", some "2025-12-20"⟩) ∧
    ((searchFlightsTool "" none c2Store oneRowQuery clockOct).1 =
      renderSearchLines [oneRow]) ∧
    ((searchFlightsTool "" none c2Store oneRowQuery clockOct).2 "default" = none) := by
  have h1 := (c2_search_terminal_turns "" none c2Store emptyQuery clockOct
    ⟨some "delhi", some "mumbai", some "2025-12-20"⟩ (by decide) rfl rfl rfl).1 rfl
  have h2 := (c2_search_terminal_turns "" none c2Store oneRowQuery clockOct
    ⟨some "delhi", some "mumbai", some "2025-12-20"⟩ (by decide) rfl rfl rfl).2
    oneRow [] rfl
  exact ⟨h1.2, by rw [h2.1], h2.2⟩

/-! ## Claim C3 -/

/-- C3 counterexample: the utterance of the claim names a city (`dubai`),
contains search wording (`flight`) and a `... to ...` route shape, so the
search override (line 1401) fires before the booking override is ever
examined — the route decision is `search_flights`, not `book_flight`. -/
theorem c3_counterexample :
    toolPickerRoute "I want to book a flight to Dubai" = "search_flights" ∧
    toolPickerRoute "I want to book a flight to Dubai" ≠ "book_flight" := by
  constructor
  · decide
  · decide

/-- C3 amended: with no detail/booking-status/profile override firing, the
router sends an utterance to Search whenever (city AND search wording) OR a
route shape OR (city AND no book/reserve/purchase word) holds — the first two
disjuncts ignore booking words entirely — and to Booking only when that whole
disjunction fails while a city or route shape occurs together with a booking
word.  In particular a booking-phrased utterance with search wording or a
route shape (such as the one of the claim) goes to Search. -/
theorem c3_router_override (u : String)
    (h1 : anyIn detailKeywords (pyLowerStr u) = false)
    (h2 : anyIn bookingInfoKeywords (pyLowerStr u) = false)
    (h3 : anyIn profileKeywords (pyLowerStr u) = false) :
    (((routerHasCity (pyLowerStr u) && routerHasSearchIntent (pyLowerStr u)) ||
        routerHasRoute (pyLowerStr u) ||
        (routerHasCity (pyLowerStr u) && !routerBookWord3 (pyLowerStr u))) = true →
      toolPickerRoute u = "search_flights") ∧
    (((routerHasCity (pyLowerStr u) && routerHasSearchIntent (pyLowerStr u)) ||
        routerHasRoute (pyLowerStr u) ||
        (routerHasCity (pyLowerStr u) && !routerBookWord3 (pyLowerStr u))) = false →
      ((routerHasCity (pyLowerStr u) || routerHasRoute (pyLowerStr u)) &&
        routerBookWord5 (pyLowerStr u)) = true →
      toolPickerRoute u = "book_flight") := by
  constructor
  · intro hs
    simp only [toolPickerRoute, h1, h2, h3, hs, if_false, if_true,
      Bool.false_eq_true, reduceIte]
  · intro hs hb
    simp only [toolPickerRoute, h1, h2, h3, hs, hb, if_false, if_true,
      Bool.false_eq_true, reduceIte]

/-- C3 witness: the override rules at two concrete utterances — a
booking-phrased route utterance goes to Search, and a city-plus-book
utterance with no search wording or route shape goes to Booking. -/
theorem c3_router_override_witness :
    toolPickerRoute "I want to book a flight to Dubai" = "search_flights" ∧
    toolPickerRoute "book dubai" = "book_flight" := by
  constructor
  · exact (c3_router_override "I want to book a flight to Dubai"
      (by decide) (by decide) (by decide)).1 (by decide)
  · exact (c3_router_override "book dubai"
      (by decide) (by decide) (by decide)).2 (by decide) (by decide)

/-! ## Claim C4 -/

/-- C4: in the `payment` stage with a chosen snapshot, a recognised fragment
maps to its canonical method in the fixed `upi, credit, debit, net, bank`
order, a successful commit deletes the BookingContext and returns the
confirmation containing booking id, PNR, flight identity, seat, method and
fare; an unrecognised utterance re-prompts with the store untouched. -/
theorem c4_payment_commit (q : String) (sess : Option String) (cid : Nat)
    (store : BookingStore) (collab : BookCollab) (clk : Clock) (ctx : BookingCtx)
    (hctx : store (sessionKey sess) = some ctx) (hstage : ctx.stage = "payment") :
    (∀ o st pm bid, ctx.chosen = some o → ctx.seat = some st →
      paymentLookup (pyLowerStr q) = some pm →
      collab.commitBooking cid o.fid st o.price pm = .ok bid →
      bookFlightTool q sess (some cid) store collab clk =
        (confirmMsg bid (pnrString collab (sessionKey sess) o.fid) o st pm,
          popStore (setStore store (sessionKey sess)
            { ctx with payment_method := some pm }) (sessionKey sess)) ∧
      (bookFlightTool q sess (some cid) store collab clk).2 (sessionKey sess) = none ∧
      StrContains (confirmMsg bid (pnrString collab (sessionKey sess) o.fid) o st pm)
        (toString bid) ∧
      StrContains (confirmMsg bid (pnrString collab (sessionKey sess) o.fid) o st pm)
        (pnrString collab (sessionKey sess) o.fid) ∧
      StrContains (confirmMsg bid (pnrString collab (sessionKey sess) o.fid) o st pm)
        (o.airline ++ " " ++ o.num) ∧
      StrContains (confirmMsg bid (pnrString collab (sessionKey sess) o.fid) o st pm) st ∧
      StrContains (confirmMsg bid (pnrString collab (sessionKey sess) o.fid) o st pm) pm ∧
      StrContains (confirmMsg bid (pnrString collab (sessionKey sess) o.fid) o st pm)
        (formatINR o.price)) ∧
    (paymentLookup (pyLowerStr q) = none →
      bookFlightTool q sess (some cid) store collab clk = (paymentRepromptMsg, store)) ∧
    (∀ l, pyIn "upi" l = true → paymentLookup l = some "UPI") ∧
    (∀ l, pyIn "upi" l = false → pyIn "credit" l = true →
      paymentLookup l = some "Credit Card") ∧
    (∀ l, pyIn "upi" l = false → pyIn "credit" l = false → pyIn "debit" l = true →
      paymentLookup l = some "Debit Card") ∧
    (∀ l, pyIn "upi" l = false → pyIn "credit" l = false → pyIn "debit" l = false →
      pyIn "net" l = true → paymentLookup l = some "Net Banking") ∧
    (∀ l, pyIn "upi" l = false → pyIn "credit" l = false → pyIn "debit" l = false →
      pyIn "net" l = false → pyIn "bank" l = true →
      paymentLookup l = some "Net Banking") := by
  refine ⟨?_, ?_, ?_, ?_, ?_, ?_, ?_⟩
  · intro o st pm bid hchosen hseat hpm hcommit
    have hr : bookFlightTool q sess (some cid) store collab clk =
        (confirmMsg bid (pnrString collab (sessionKey sess) o.fid) o st pm,
          popStore (setStore store (sessionKey sess)
            { ctx with payment_method := some pm }) (sessionKey sess)) := by
      simp only [bookFlightTool, hctx, Option.getD_some, hstage]
      rw [if_neg (by decide), if_neg (by decide), if_neg (by decide), if_pos trivial]
      simp only [hpm, hchosen, hseat, hcommit]
    refine ⟨hr, ?_, ?_, ?_, ?_, ?_, ?_, ?_⟩
    · rw [hr]
      simp [popStore]
    · exact ⟨"‚úÖ Booking Confirmed\n" ++ "Booking ID: ",
        " | PNR: " ++ pnrString collab (sessionKey sess) o.fid ++ "\n" ++ "Flight: " ++ o.airline ++ " " ++ o.num ++ " | " ++ o.origin ++ " ‚Üí " ++ o.destination ++ " | Dep: " ++ o.dep ++ "\n" ++ "Seat: " ++ st ++ " | Payment: " ++ pm ++ " | Fare: " ++ formatINR o.price ++ "\n" ++ "Have a great trip!",
        by simp only [confirmMsg, String.append_assoc]⟩
    · exact ⟨"‚úÖ Booking Confirmed\n" ++ "Booking ID: " ++ toString bid ++ " | PNR: ",
        "\n" ++ "Flight: " ++ o.airline ++ " " ++ o.num ++ " | " ++ o.origin ++ " ‚Üí " ++ o.destination ++ " | Dep: " ++ o.dep ++ "\n" ++ "Seat: " ++ st ++ " | Payment: " ++ pm ++ " | Fare: " ++ formatINR o.price ++ "\n" ++ "Have a great trip!",
        by simp only [confirmMsg, String.append_assoc]⟩
    · exact ⟨"‚úÖ Booking Confirmed\n" ++ "Booking ID: " ++ toString bid ++ " | PNR: " ++ pnrString collab (sessionKey sess) o.fid ++ "\n" ++ "Flight: ",
        " | " ++ o.origin ++ " ‚Üí " ++ o.destination ++ " | Dep: " ++ o.dep ++ "\n" ++ "Seat: " ++ st ++ " | Payment: " ++ pm ++ " | Fare: " ++ formatINR o.price ++ "\n" ++ "Have a great trip!",
        by simp only [confirmMsg, String.append_assoc]⟩
    · exact ⟨"‚úÖ Booking Confirmed\n" ++ "Booking ID: " ++ toString bid ++ " | PNR: " ++ pnrString collab (sessionKey sess) o.fid ++ "\n" ++ "Flight: " ++ o.airline ++ " " ++ o.num ++ " | " ++ o.origin ++ " ‚Üí " ++ o.destination ++ " | Dep: " ++ o.dep ++ "\n" ++ "Seat: ",
        " | Payment: " ++ pm ++ " | Fare: " ++ formatINR o.price ++ "\n" ++ "Have a great trip!",
        by simp only [confirmMsg, String.append_assoc]⟩
    · exact ⟨"‚úÖ Booking Confirmed\n" ++ "Booking ID: " ++ toString bid ++ " | PNR: " ++ pnrString collab (sessionKey sess) o.fid ++ "\n" ++ "Flight: " ++ o.airline ++ " " ++ o.num ++ " | " ++ o.origin ++ " ‚Üí " ++ o.destination ++ " | Dep: " ++ o.dep ++ "\n" ++ "Seat: " ++ st ++ " | Payment: ",
        " | Fare: " ++ formatINR o.price ++ "\n" ++ "Have a great trip!",
        by simp only [confirmMsg, String.append_assoc]⟩
    · exact ⟨"‚úÖ Booking Confirmed\n" ++ "Booking ID: " ++ toString bid ++ " | PNR: " ++ pnrString collab (sessionKey sess) o.fid ++ "\n" ++ "Flight: " ++ o.airline ++ " " ++ o.num ++ " | " ++ o.origin ++ " ‚Üí " ++ o.destination ++ " | Dep: " ++ o.dep ++ "\n" ++ "Seat: " ++ st ++ " | Payment: " ++ pm ++ " | Fare: ",
        "\n" ++ "Have a great trip!",
        by simp only [confirmMsg, String.append_assoc]⟩
  · intro hpm
    simp only [bookFlightTool, hctx, Option.getD_some, hstage]
    rw [if_neg (by decide), if_neg (by decide), if_neg (by decide), if_pos trivial]
    simp only [hpm]
  · intro l h1
    simp [paymentLookup, methodPairs, List.find?, h1]
  · intro l h1 h2
    simp [paymentLookup, methodPairs, List.find?, h1, h2]
  · intro l h1 h2 h3
    simp [paymentLookup, methodPairs, List.find?, h1, h2, h3]
  · intro l h1 h2 h3 h4
    simp [paymentLookup, methodPairs, List.find?, h1, h2, h3, h4]
  · intro l h1 h2 h3 h4 h5
    simp [paymentLookup, methodPairs, List.find?, h1, h2, h3, h4, h5]

/-- A session sitting in the `payment` stage with chosen flight and seat. -/
def c4PayStore : BookingStore := fun k =>
  if k = "s1" then
    some { stage := "payment", origin := some "delhi", destination := some "mumbai",
           date := some "2025-12-20", options := [sampleOpt], chosen := some sampleOpt,
           seat := some "12A" }
  else none

/-- A collaborator whose commit succeeds with booking id 42. -/
def commit42Collab : BookCollab :=
  ⟨fun _ _ _ => .ok [], fun _ _ _ _ _ => .ok 42, fun _ => 123456789⟩

/-- C4 witness: a concrete UPI payment commits booking 42, returns the full
confirmation and deletes the context; a concrete unrecognised utterance
re-prompts and leaves the store untouched. -/
theorem c4_payment_commit_witness :
    (bookFlightTool "I'll pay with UPI" (some "s1") (some 3) c4PayStore commit42Collab
        clockOct).1 =
      confirmMsg 42 (pnrString commit42Collab "s1" 7) sampleOpt "12A" "UPI" ∧
    (bookFlightTool "I'll pay with UPI" (some "s1") (some 3) c4PayStore commit42Collab
        clockOct).2 "s1" = none ∧
    bookFlightTool "cash please" (some "s1") (some 3) c4PayStore commit42Collab clockOct =
      (paymentRepromptMsg, c4PayStore) := by
  have h := c4_payment_commit "I'll pay with UPI" (some "s1") 3 c4PayStore commit42Collab
    clockOct _ rfl rfl
  have h1 := h.1 sampleOpt "12A" "UPI" 42 rfl rfl (by decide) rfl
  have h2 := c4_payment_commit "cash please" (some "s1") 3 c4PayStore commit42Collab
    clockOct _ rfl rfl
  refine ⟨?_, h1.2.1, h2.2.1 (by decide)⟩
  rw [h1.1]
  rfl

/-! ## Claim C5 -/

/-- C5: ordinal parsing of the `choose` stage — `first` selects 1, `second`
selects 2, `book N` selects N, a bare `book`/`book this` defaults to 1; an
unparseable or out-of-range index re-prompts leaving the store (hence stage
and options) untouched, and a valid index snapshots `options[index-1]` into
`chosen` and advances the stage to `seat`. -/
theorem c5_choose_stage (q : String) (sess : Option String) (cid : Nat)
    (store : BookingStore) (collab : BookCollab) (clk : Clock) (ctx : BookingCtx)
    (hctx : store (sessionKey sess) = some ctx) (hstage : ctx.stage = "choose") :
    (pyIn "first" (pyLowerStr q) = true → chooseParsedIdx (pyLowerStr q) = some 1) ∧
    (pyIn "first" (pyLowerStr q) = false → pyIn "second" (pyLowerStr q) = true →
      chooseParsedIdx (pyLowerStr q) = some 2) ∧
    (∀ n, pyIn "first" (pyLowerStr q) = false → pyIn "second" (pyLowerStr q) = false →
      bookDigitFind (pyLowerStr q).data = some n →
      chooseParsedIdx (pyLowerStr q) = some n) ∧
    (pyIn "first" (pyLowerStr q) = false → pyIn "second" (pyLowerStr q) = false →
      bookDigitFind (pyLowerStr q).data = none → pyIn "book" (pyLowerStr q) = true →
      chooseParsedIdx (pyLowerStr q) = some 1) ∧
    (chooseParsedIdx (pyLowerStr q) = none →
      bookFlightTool q sess (some cid) store collab clk = (choosePromptMsg, store)) ∧
    (∀ i, chooseParsedIdx (pyLowerStr q) = some i → (i = 0 ∨ ctx.options.length < i) →
      bookFlightTool q sess (some cid) store collab clk = (choosePromptMsg, store)) ∧
    (∀ i ch, chooseParsedIdx (pyLowerStr q) = some i → 1 ≤ i → i ≤ ctx.options.length →
      ctx.options.get? (i - 1) = some ch →
      bookFlightTool q sess (some cid) store collab clk =
        (seatPromptMsg, setStore store (sessionKey sess)
          { ctx with chosen := some ch, stage := "seat" })) := by
  refine ⟨?_, ?_, ?_, ?_, ?_, ?_, ?_⟩
  · intro hf
    simp [chooseParsedIdx, hf]
  · intro hf hs
    simp [chooseParsedIdx, hf, hs]
  · intro n hf hs hbd
    simp [chooseParsedIdx, hf, hs, hbd]
  · intro hf hs hbd hbook
    simp [chooseParsedIdx, hf, hs, hbd, hbook]
  · intro hidx
    simp only [bookFlightTool, hctx, Option.getD_some, hstage]
    rw [if_neg (by decide), if_pos trivial]
    simp only [hidx]
  · intro i hidx hrange
    simp only [bookFlightTool, hctx, Option.getD_some, hstage]
    rw [if_neg (by decide), if_pos trivial]
    simp only [hidx]
    rw [dif_neg (by omega)]
  · intro i ch hidx h1 h2 hget
    simp only [bookFlightTool, hctx, Option.getD_some, hstage]
    rw [if_neg (by decide), if_pos trivial]
    simp only [hidx]
    rw [dif_pos ⟨h1, h2⟩]
    rw [← List.get?_eq_get]
    simp only [hctx, Option.getD_some]
    rw [hget]

/-- A session in the `choose` stage with a fixed 2-option list. -/
def sampleOpt2 : FlightOption :=
  ⟨8, "AI102", "Air India", "Delhi (DEL)", "Mumbai (BOM)", "2025-12-20 11:00", 6000⟩

def c5ChooseStore : BookingStore := fun k =>
  if k = "s1" then
    some { stage := "choose", origin := some "delhi", destination := some "mumbai",
           date := some "2025-12-20", options := [sampleOpt, sampleOpt2] }
  else none

/-- C5 witness: against the 2-option list, `book second` selects exactly index
2 (the second snapshot becomes `chosen`, stage moves to `seat`), while the
out-of-range `book 9` re-prompts leaving the store unchanged. -/
theorem c5_choose_stage_witness :
    bookFlightTool "book second" (some "s1") (some 3) c5ChooseStore benignCollab clockOct =
      (seatPromptMsg, setStore c5ChooseStore "s1"
        { stage := "seat", origin := some "delhi", destination := some "mumbai",
          date := some "2025-12-20", options := [sampleOpt, sampleOpt2],
          chosen := some sampleOpt2 }) ∧
    bookFlightTool "book 9" (some "s1") (some 3) c5ChooseStore benignCollab clockOct =
      (choosePromptMsg, c5ChooseStore) := by
  constructor
  · have h := (c5_choose_stage "book second" (some "s1") 3 c5ChooseStore benignCollab
      clockOct _ rfl rfl).2.2.2.2.2.2 2 sampleOpt2 (by decide) (by decide) (by decide) rfl
    rw [h]
    rfl
  · exact (c5_choose_stage "book 9" (some "s1") 3 c5ChooseStore benignCollab
      clockOct _ rfl rfl).2.2.2.2.2.1 9 (by decide) (by decide)

/-- The collect-stage slot merge never touches the stage field. -/
theorem bookMergeCtx_stage (t : String) (ctx : BookingCtx) (clk : Clock) :
    (bookMergeCtx t ctx clk).stage = ctx.stage := by
  unfold bookMergeCtx
  dsimp only
  repeat' split <;> try rfl

/-! ## Claim C6 -/

/-- C6: collaborator failures are absorbed at the flow boundary.  A raising
query in `collect` (after the merged slots are already persisted, line 565)
returns the search-failed warning with the stage still `collect` and the
merged context intact; a raising commit in `payment` returns the
booking-failed warning with the stage still `payment` and the context — as it
stood immediately before the failing call, i.e. with `payment_method` already
set in place (line 651) — still stored.  Nothing is cleared, so the same step
can be retried. -/
theorem c6_collab_errors_leave_context (q : String) (sess : Option String)
    (cid : Nat) (store : BookingStore) (collab : BookCollab) (clk : Clock)
    (ctx : BookingCtx) (e : String)
    (hctx : store (sessionKey sess) = some ctx) :
    (ctx.stage = "collect" → ∀ mctx, bookMergeCtx (pyLowerStr q) ctx clk = mctx →
      mctx.origin.isSome = true → mctx.destination.isSome = true →
      mctx.date.isSome = true →
      collab.queryFlights (mctx.origin.getD "") (mctx.destination.getD "")
        (mctx.date.getD "") = .error e →
      bookFlightTool q sess (some cid) store collab clk =
        (bookErrPrefix ++ e, setStore store (sessionKey sess) mctx) ∧
      (bookFlightTool q sess (some cid) store collab clk).2 (sessionKey sess) =
        some mctx ∧
      mctx.stage = "collect") ∧
    (ctx.stage = "payment" → ∀ o st pm, ctx.chosen = some o → ctx.seat = some st →
      paymentLookup (pyLowerStr q) = some pm →
      collab.commitBooking cid o.fid st o.price pm = .error e →
      bookFlightTool q sess (some cid) store collab clk =
        (commitErrPrefix ++ e,
          setStore store (sessionKey sess) { ctx with payment_method := some pm }) ∧
      (bookFlightTool q sess (some cid) store collab clk).2 (sessionKey sess) =
        some { ctx with payment_method := some pm } ∧
      ({ ctx with payment_method := some pm } : BookingCtx).stage = "payment" ∧
      ({ ctx with payment_method := some pm } : BookingCtx).chosen = some o ∧
      ({ ctx with payment_method := some pm } : BookingCtx).seat = some st) := by
  constructor
  · intro hstage mctx hm ho hd hdt herr
    have hno : mctx.origin.isNone = false := by
      rcases Option.isSome_iff_exists.mp ho with ⟨o, ho2⟩
      simp [ho2]
    have hnd : mctx.destination.isNone = false := by
      rcases Option.isSome_iff_exists.mp hd with ⟨d, hd2⟩
      simp [hd2]
    have hndt : mctx.date.isNone = false := by
      rcases Option.isSome_iff_exists.mp hdt with ⟨t, ht2⟩
      simp [ht2]
    have hr : bookFlightTool q sess (some cid) store collab clk =
        (bookErrPrefix ++ e, setStore store (sessionKey sess) mctx) := by
      simp only [bookFlightTool, hctx, Option.getD_some, hstage]
      rw [if_pos trivial, hm]
      simp only [hno, hnd, hndt, ho, hd, hdt, herr, Bool.and_false, Bool.false_and,
        Bool.and_true, Bool.true_and, if_false, Bool.false_eq_true, reduceIte]
    refine ⟨hr, ?_, ?_⟩
    · rw [hr]
      simp [setStore]
    · rw [← hm, bookMergeCtx_stage, hstage]
  · intro hstage o st pm hchosen hseat hpm hcommit
    have hr : bookFlightTool q sess (some cid) store collab clk =
        (commitErrPrefix ++ e,
          setStore store (sessionKey sess) { ctx with payment_method := some pm }) := by
      simp only [bookFlightTool, hctx, Option.getD_some, hstage]
      rw [if_neg (by decide), if_neg (by decide), if_neg (by decide), if_pos trivial]
      simp only [hpm, hchosen, hseat, hcommit]
    refine ⟨hr, ?_, hstage, hchosen, hseat⟩
    rw [hr]
    simp [setStore]

/-- A collaborator whose lookup and commit both raise. -/
def failingCollab : BookCollab :=
  ⟨fun _ _ _ => .error "db down", fun _ _ _ _ _ => .error "db down", fun _ => 0⟩

/-- A session in `collect` holding both cities, waiting for the date. -/
def c6CollectStore : BookingStore := fun k =>
  if k = "s1" then
    some { stage := "collect", origin := some "delhi", destination := some "mumbai" }
  else none

/-- C6 witness: a raising lookup while completing `collect` keeps the merged
context at stage `collect`, and a raising commit in `payment` keeps the
context (with the method recorded) at stage `payment`. -/
theorem c6_collab_errors_leave_context_witness :
    bookFlightTool "2025-12-20" (some "s1") (some 3) c6CollectStore failingCollab clockOct =
      (bookErrPrefix ++ "db down", setStore c6CollectStore "s1"
        { stage := "collect", origin := some "delhi", destination := some "mumbai",
          date := some "2025-12-20" }) ∧
    bookFlightTool "upi" (some "s1") (some 3) c4PayStore failingCollab clockOct =
      (commitErrPrefix ++ "db down", setStore c4PayStore "s1"
        { stage := "payment", origin := some "delhi", destination := some "mumbai",
          date := some "2025-12-20", options := [sampleOpt], chosen := some sampleOpt,
          seat := some "12A", payment_method := some "UPI" }) := by
  constructor
  · have h := (c6_collab_errors_leave_context "2025-12-20" (some "s1") 3 c6CollectStore
      failingCollab clockOct _ "db down" rfl).1 rfl
      { stage := "collect", origin := some "delhi", destination := some "mumbai",
        date := some "2025-12-20" } (by decide) rfl rfl rfl rfl
    rw [h.1]
    rfl
  · have h := (c6_collab_errors_leave_context "upi" (some "s1") 3 c4PayStore
      failingCollab clockOct _ "db down" rfl).2 rfl sampleOpt "12A" "UPI" rfl rfl
      (by decide) rfl
    rw [h.1]
    rfl

/-! ## Claim C7 -/

/-- The scanner index is defined exactly on occurring substrings. -/
theorem indexOfSubAux_none_of_absent (needle hay : List Char) (i : Nat)
    (h : isInfixL needle hay = false) : indexOfSubAux needle hay i = none := by
  induction hay generalizing i with
  | nil =>
    simp only [isInfixL] at h
    simp [indexOfSubAux, h]
  | cons c rest ih =>
    simp only [isInfixL, Bool.or_eq_false_iff] at h
    simp only [indexOfSubAux, h.1, Bool.false_eq_true, reduceIte]
    exact ih (i + 1) h.2


/-- C7 counterexample: `a to b` contains no vocabulary city or code, yet the
`X to Y` pattern matches and the token lookup accepts a token contained in a
vocabulary name (`a` is inside `mumbai`), so the extractor returns
`origin = destination = mumbai` instead of two nulls. -/
theorem c7_counterexample :
    citiesList.all (fun c => !(pyIn c "a to b")) = true ∧
    extractCityTokens "a to b" ≠ ⟨none, none⟩ ∧
    extractCityTokens "a to b" = ⟨some "mumbai", some "mumbai"⟩ := by
  refine ⟨?_, ?_, ?_⟩
  · decide
  · decide
  · decide

/-- C7 amended: the extractor is a total function (it cannot raise), and for
every text on which none of the five extraction patterns matches and in which
no vocabulary city occurs, it returns two nulls; a text with no vocabulary
city can however still produce non-null slots when a pattern matches and its
captured token is contained in some vocabulary name. -/
theorem c7_no_city_no_pattern_null (t : String)
    (hft : fromToFind (pyStrip (pyLowerStr t)).data = none)
    (hxy : xToYFind (pyStrip (pyLowerStr t)).data = none)
    (hgo : goToFind (pyStrip (pyLowerStr t)).data = none)
    (hto : toOnlyFind (pyStrip (pyLowerStr t)).data = none)
    (hfo : fromOnlyFind (pyStrip (pyLowerStr t)).data = none)
    (hcity : ∀ c ∈ citiesList, pyIn c (pyStrip (pyLowerStr t)) = false) :
    extractCityTokens t = ⟨none, none⟩ := by
  have hocc : cityOccurrences (pyStrip (pyLowerStr t)).data = [] := by
    unfold cityOccurrences
    have hfm : citiesList.filterMap
        (fun c => (indexOfSubAux c.data (pyStrip (pyLowerStr t)).data 0).map
          (fun i => (i, c))) = [] := by
      rw [List.filterMap_eq_nil_iff]
      intro c hc
      rw [indexOfSubAux_none_of_absent]
      · rfl
      · exact hcity c hc
    rw [hfm]
    rfl
  unfold extractCityTokens
  simp only [hft, hxy, hgo, hto, hfo, hocc]
  rfl

/-- C7 witness: the amended contract at a concrete pattern-free, city-free
text. -/
theorem c7_no_city_no_pattern_null_witness :
    extractCityTokens "hello world" = ⟨none, none⟩ :=
  c7_no_city_no_pattern_null "hello world" rfl rfl rfl rfl rfl (by decide)

/-! ## Claim C8 -/

/-- C8 counterexample: `_extract_date_tokens` reads `datetime.now()`, so two
calls with the same text made under different clocks disagree — for the
relative word `tomorrow` (different days) and for the `on <day> <month>` form
(different years).  The result does not depend only on the input text. -/
theorem c8_counterexample :
    extractDateTokens "tomorrow" ⟨2025, "2025-01-01", "2025-01-02"⟩ ≠
      extractDateTokens "tomorrow" ⟨2025, "2025-01-02", "2025-01-03"⟩ ∧
    extractDateTokens "on 5 dec" ⟨2025, "2025-01-01", "2025-01-02"⟩ ≠
      extractDateTokens "on 5 dec" ⟨2026, "2026-01-01", "2026-01-02"⟩ := by
  constructor
  · decide
  · decide

/-- C8 amended: both extractors are side-effect free; the city extractor is a
function of the text alone, and the date extractor is a function of the text
and the current clock — its `tomorrow`/`today`/month-name branches read the
clock, while any text matched by the literal ISO branch gets a
clock-independent result. -/
theorem c8_extractors_pure (t1 t2 : String) (c1 c2 : Clock) (h : t1 = t2) :
    extractCityTokens t1 = extractCityTokens t2 ∧
    (∀ d, isoDateFind (pyLowerStr t1).data = some d →
      extractDateTokens t1 c1 = some (String.mk d) ∧
      extractDateTokens t1 c1 = extractDateTokens t2 c2) := by
  subst h
  refine ⟨rfl, fun d hd => ?_⟩
  have h1 : extractDateTokens t1 c1 = some (String.mk d) := by
    unfold extractDateTokens
    simp only [hd]
  have h2 : extractDateTokens t1 c2 = some (String.mk d) := by
    unfold extractDateTokens
    simp only [hd]
  exact ⟨h1, by rw [h1, h2]⟩

/-- C8 witness: a concrete ISO-dated text under two different clocks. -/
theorem c8_extractors_pure_witness :
    extractDateTokens "fly on 2025-12-20 please" ⟨2025, "2025-01-01", "2025-01-02"⟩ =
      some "2025-12-20" ∧
    extractDateTokens "fly on 2025-12-20 please" ⟨2025, "2025-01-01", "2025-01-02"⟩ =
      extractDateTokens "fly on 2025-12-20 please" ⟨2026, "2026-06-06", "2026-06-07"⟩ := by
  have h := (c8_extractors_pure "fly on 2025-12-20 please" "fly on 2025-12-20 please"
    ⟨2025, "2025-01-01", "2025-01-02"⟩ ⟨2026, "2026-06-06", "2026-06-07"⟩ rfl).2
    "2025-12-20".data (by decide)
  exact ⟨h.1, h.2⟩

/-! ## Claim C9 -/

theorem setStore_idem {α : Type} (st : String → Option α) (k : String) (v : α) :
    setStore (setStore st k v) k v = setStore st k v := by
  funext k2
  unfold setStore
  by_cases h : k2 = k
  · simp [h]
  · simp [h]

/-- C9: a session context whose stage matches none of the four stage branches
falls through to the fallback, which stores `{"stage": "start"}` and returns
the flight-identifier prompt; since `start` also matches none of the four
branches, the state is absorbing — every later authenticated call, for every
utterance, any collaborator and any clock, returns the same prompt and leaves
the stage at `start`, never re-entering `collect` and never raising. -/
theorem c9_start_stage_absorbing (q : String) (sess : Option String) (cid : Nat)
    (store : BookingStore) (collab : BookCollab) (clk : Clock) (ctx : BookingCtx)
    (hctx : store (sessionKey sess) = some ctx)
    (h1 : ctx.stage ≠ "collect") (h2 : ctx.stage ≠ "choose")
    (h3 : ctx.stage ≠ "seat") (h4 : ctx.stage ≠ "payment") :
    bookFlightTool q sess (some cid) store collab clk =
      (startPromptMsg, setStore store (sessionKey sess) startBookingCtx) ∧
    startBookingCtx.stage = "start" ∧
    setStore store (sessionKey sess) startBookingCtx (sessionKey sess) =
      some startBookingCtx ∧
    (∀ (q2 : String) (collab2 : BookCollab) (clk2 : Clock),
      bookFlightTool q2 sess (some cid)
          (setStore store (sessionKey sess) startBookingCtx) collab2 clk2 =
        (startPromptMsg, setStore store (sessionKey sess) startBookingCtx)) := by
  have hmain : ∀ (q0 : String) (st0 : BookingStore) (cb0 : BookCollab) (ck0 : Clock)
      (c0 : BookingCtx), st0 (sessionKey sess) = some c0 →
      c0.stage ≠ "collect" → c0.stage ≠ "choose" → c0.stage ≠ "seat" →
      c0.stage ≠ "payment" →
      bookFlightTool q0 sess (some cid) st0 cb0 ck0 =
        (startPromptMsg, setStore st0 (sessionKey sess) startBookingCtx) := by
    intro q0 st0 cb0 ck0 c0 hc0 g1 g2 g3 g4
    simp only [bookFlightTool, hc0, Option.getD_some]
    rw [if_neg g1, if_neg g2, if_neg g3, if_neg g4]
  have hstart : setStore store (sessionKey sess) startBookingCtx (sessionKey sess) =
      some startBookingCtx := by
    simp [setStore]
  refine ⟨hmain q store collab clk ctx hctx h1 h2 h3 h4, rfl, hstart, ?_⟩
  intro q2 collab2 clk2
  have h := hmain q2 (setStore store (sessionKey sess) startBookingCtx) collab2 clk2
    startBookingCtx hstart (by decide) (by decide) (by decide) (by decide)
  rw [h, setStore_idem]

/-- A session already sitting in the absorbing `start` state. -/
def c9StartStore : BookingStore := fun k =>
  if k = "s1" then some startBookingCtx else none

/-- C9 witness: from the `start` state a concrete authenticated call returns
the flight-identifier prompt and the state is reproduced; a further call
behaves identically. -/
theorem c9_start_stage_absorbing_witness :
    bookFlightTool "delhi to mumbai" (some "s1") (some 3) c9StartStore benignCollab
        clockOct =
      (startPromptMsg, setStore c9StartStore "s1" startBookingCtx) ∧
    bookFlightTool "anything" (some "s1") (some 3)
        (setStore c9StartStore "s1" startBookingCtx) failingCollab clockOct =
      (startPromptMsg, setStore c9StartStore "s1" startBookingCtx) := by
  have h := c9_start_stage_absorbing "delhi to mumbai" (some "s1") 3 c9StartStore
    benignCollab clockOct startBookingCtx rfl (by decide) (by decide) (by decide)
    (by decide)
  exact ⟨h.1, h.2.2.2 "anything" failingCollab clockOct⟩

/-! ## Claim C10 -/

/-- The context written under `default` by the first None-session booking turn
(`delhi to mumbai`: both cities, no date yet). -/
def c10Ctx1 : BookingCtx :=
  { stage := "collect", origin := some "delhi", destination := some "mumbai" }

/-- The merged context of the second None-session turn (`2025-12-20`). -/
def c10Ctx2 : BookingCtx :=
  { stage := "collect", origin := some "delhi", destination := some "mumbai",
    date := some "2025-12-20" }

/-- The context stored after the second turn presents its options. -/
def c10ChooseCtx (row : FlightRow) : BookingCtx :=
  { stage := "choose", origin := some "delhi", destination := some "mumbai",
    date := some "2025-12-20", options := [rowToOption row] }

/-- C10: a `None` session id falls back to the shared literal key `default`
in both tools (passing `None` and passing `"default"` are indistinguishable),
so two runs on behalf of distinct customers that both pass `None` share slot
state: the cities that customer `c1` supplies are read back by customer
`c2`'s next turn, which completes the query and stores the option list under
the same key — None-session callers are not isolated from each other. -/
theorem c10_none_sessions_share_default (c1 c2 : Nat) (_hdistinct : c1 ≠ c2)
    (store : BookingStore) (collab : BookCollab) (clk : Clock) (row : FlightRow)
    (hstore : store "default" = none)
    (hdb : collab.queryFlights "delhi" "mumbai" "2025-12-20" = .ok [row]) :
    sessionKey none = "default" ∧
    (∀ (q : String) (c : Option Nat) (st : BookingStore) (cb : BookCollab)
      (ck : Clock),
      bookFlightTool q none c st cb ck = bookFlightTool q (some "default") c st cb ck) ∧
    (∀ (q : String) (st : SearchStore) (db : FlightQuery) (ck : Clock),
      searchFlightsTool q none st db ck = searchFlightsTool q (some "default") st db ck) ∧
    bookFlightTool "delhi to mumbai" none (some c1) store collab clk =
      (datePromptMsg, setStore store "default" c10Ctx1) ∧
    bookFlightTool "2025-12-20" none (some c2)
        (setStore store "default" c10Ctx1) collab clk =
      (renderBookOptions [rowToOption row],
        setStore (setStore (setStore store "default" c10Ctx1) "default" c10Ctx2)
          "default" (c10ChooseCtx row)) ∧
    (bookFlightTool "2025-12-20" none (some c2)
        (setStore store "default" c10Ctx1) collab clk).2 "default" =
      some (c10ChooseCtx row) := by
  have hturn1 : bookFlightTool "delhi to mumbai" none (some c1) store collab clk =
      (datePromptMsg, setStore store "default" c10Ctx1) := by
    have hs : store (sessionKey none) = none := hstore
    simp only [bookFlightTool, hs]
    rfl
  have hred : bookFlightTool "2025-12-20" none (some c2)
      (setStore store "default" c10Ctx1) collab clk =
      (match collab.queryFlights "delhi" "mumbai" "2025-12-20" with
       | .error e => (bookErrPrefix ++ e,
           setStore (setStore store "default" c10Ctx1) "default" c10Ctx2)
       | .ok [] => (bookNoFlightsMsg,
           setStore (setStore store "default" c10Ctx1) "default" c10Ctx2)
       | .ok fs => (renderBookOptions (fs.map rowToOption),
           setStore (setStore (setStore store "default" c10Ctx1) "default" c10Ctx2)
             "default"
             { c10Ctx2 with options := fs.map rowToOption, stage := "choose" })) := rfl
  have hturn2 : bookFlightTool "2025-12-20" none (some c2)
      (setStore store "default" c10Ctx1) collab clk =
      (renderBookOptions [rowToOption row],
        setStore (setStore (setStore store "default" c10Ctx1) "default" c10Ctx2)
          "default" (c10ChooseCtx row)) := by
    rw [hred, hdb]
    rfl
  refine ⟨rfl, fun q c st cb ck => rfl, fun q st db ck => rfl, hturn1, hturn2, ?_⟩
  rw [hturn2]
  rfl

/-- A collaborator returning exactly one flight for the shared-slot query. -/
def c10Collab : BookCollab :=
  ⟨fun o d dt => if o = "delhi" && d = "mumbai" && dt = "2025-12-20"
      then .ok [oneRow] else .ok [],
   fun _ _ _ _ _ => .ok 1, fun _ => 0⟩

/-- An empty booking store. -/
def emptyBookingStore : BookingStore := fun _ => none

/-- C10 witness: customers 1 and 2, both passing a `None` session id — the
cities written by customer 1 are consumed by customer 2's date-only turn,
which reaches the query and stores the shared option list under `default`. -/
theorem c10_none_sessions_share_default_witness :
    bookFlightTool "delhi to mumbai" none (some 1) emptyBookingStore c10Collab
        clockOct =
      (datePromptMsg, setStore emptyBookingStore "default" c10Ctx1) ∧
    (bookFlightTool "2025-12-20" none (some 2)
        (setStore emptyBookingStore "default" c10Ctx1) c10Collab clockOct).1 =
      renderBookOptions [rowToOption oneRow] ∧
    (bookFlightTool "2025-12-20" none (some 2)
        (setStore emptyBookingStore "default" c10Ctx1) c10Collab clockOct).2 "default" =
      some (c10ChooseCtx oneRow) := by
  have h := c10_none_sessions_share_default 1 2 (by decide) emptyBookingStore c10Collab
    clockOct oneRow rfl rfl
  exact ⟨h.2.2.2.1, by rw [h.2.2.2.2.1], h.2.2.2.2.2⟩
